import Mathlib

/-!
Verification of the coordinate-detection / reprojection / batch-ingestion core
of the Portal-SONAGED dashboard (`src/src/components/map/MapView.tsx`).

The TypeScript functions `detectCoordinateSystem`, `convertCoordinates`,
`extractCoordinates` and `uploadGeoJSONWithProj4` are embedded shallowly:

* JavaScript runtime values are modelled by the inductive `JVal`
  (numbers as exact rationals; the float special values NaN and -0 are not
  representable, and no claim depends on them);
* the external `proj4` library call is an explicit function parameter of type
  `ProjFn`; a thrown projection exception is an `Except.error` carrying the
  exception message;
* the external Supabase insert that follows record construction is outside the
  modelled core (the claims stop at the produced records and statistics), and
  the ambient clock read by `new Date().toISOString()` is an explicit `now`
  parameter.
-/

namespace Sonaged

/-- Model of a JavaScript runtime value appearing in the upload pipeline. -/
inductive JVal where
  | undef
  | nul
  | bool (b : Bool)
  | num (q : ℚ)
  | str (s : String)
  | arr (elems : List JVal)
  | obj (fields : List (String × JVal))

/-- JavaScript truthiness (`!v` is `!truthy v`).  `NaN` and `-0` do not occur
in the rational model. -/
def truthy : JVal → Bool
  | .undef => false
  | .nul => false
  | .bool b => b
  | .num q => q != 0
  | .str s => s != ""
  | .arr _ => true
  | .obj _ => true

/-- JavaScript `typeof`. -/
def jsTypeof : JVal → String
  | .undef => "undefined"
  | .nul => "object"
  | .bool _ => "boolean"
  | .num _ => "number"
  | .str _ => "string"
  | .arr _ => "object"
  | .obj _ => "object"

/-- JavaScript `Array.isArray`. -/
def isArray : JVal → Bool
  | .arr _ => true
  | _ => false

/-- First binding of a key in an object literal (objects in the pipeline are
built without duplicate keys). -/
def lookupField : List (String × JVal) → String → JVal
  | [], _ => .undef
  | (k, v) :: rest, key => if k = key then v else lookupField rest key

/-- JavaScript property access `v.k` (and `v?.k`, which differs only on the
nullish cases that already yield `undef` here). -/
def getField : JVal → String → JVal
  | .obj fs, k => lookupField fs k
  | _, _ => (.undef)

/-- JavaScript indexing `v[i]`: array element, string character, or object
lookup of the stringified index. -/
def jsIndex : JVal → Nat → JVal
  | .arr xs, i => xs.getD i .undef
  | .str s, i =>
    match s.data.get? i with
    | some c => .str (String.singleton c)
    | none => .undef
  | .obj fs, i => lookupField fs (toString i)
  | _, _ => (.undef)

/-- JavaScript `a || b`. -/
def jsOr (a b : JVal) : JVal := if truthy a then a else b

/-! ## CRS catalogue, detection and conversion (`MapView.tsx` 1639-1704) -/

/-- The fixed `proj4.defs` catalogue registered at startup. -/
def proj4Defs : List (String × String) :=
  [("EPSG:4326", "+proj=longlat +datum=WGS84 +no_defs"),
   ("EPSG:32628", "+proj=utm +zone=28 +datum=WGS84 +units=m +no_defs"),
   ("EPSG:32627", "+proj=utm +zone=27 +datum=WGS84 +units=m +no_defs"),
   ("EPSG:2147", "+proj=lcc +lat_1=13.5 +lat_2=15.5 +lat_0=14.5 +lon_0=-14 +x_0=400000 +y_0=300000 +ellps=clrk80 +towgs84=-263,6,431,0,0,0,0 +units=m +no_defs")]

/-- The external `proj4(sourceProj, target, [x, y])` transform: source CRS
identifier and the input pair to the geographic pair, or the message of the
exception it throws. -/
abbrev ProjFn := String → ℚ → ℚ → Except String (ℚ × ℚ)

/-- Source function `detectCoordinateSystem` (`MapView.tsx` 1659-1666): range heuristics in
source order, `EPSG:32628` as the final fallback. -/
def detectCoordinateSystem (x y : ℚ) : String :=
  if -180 ≤ x ∧ x ≤ 180 ∧ -90 ≤ y ∧ y ≤ 90 then "EPSG:4326"
  else if 200000 ≤ x ∧ x ≤ 800000 ∧ 1400000 ≤ y ∧ y ≤ 1900000 then "EPSG:32628"
  else if 400000 ≤ x ∧ x ≤ 900000 ∧ 1400000 ≤ y ∧ y ≤ 1900000 then "EPSG:32627"
  else if 200000 ≤ x ∧ x ≤ 600000 ∧ 0 ≤ y ∧ y ≤ 500000 then "EPSG:2147"
  else "EPSG:32628"

/-- The quantity `⌊q * scale + 1/2⌋` computed over the integers (numerals reduce where
rational arithmetic would not): the half-up rounding of `toFixed`, which picks
the larger candidate on ties. -/
def halfUpScaled (q : ℚ) (scale : ℕ) : ℤ :=
  Int.fdiv (2 * scale * q.num + q.den) (2 * q.den)

/-- Exact-decimal model of `Number(q.toFixed(6))`. -/
def round6 (q : ℚ) : ℚ := mkRat (halfUpScaled q 1000000) 1000000

/-- Two-digit zero padding for the fractional part of `toFixed2`. -/
def pad2 (n : ℕ) : String := (if n < 10 then "0" else "") ++ toString n

/-- Exact-decimal model of `q.toFixed(2)` as used in the out-of-bounds error
message. -/
def toFixed2 (q : ℚ) : String :=
  let n : ℤ := halfUpScaled q 100
  (if n < 0 then "-" else "") ++ toString (n.natAbs / 100) ++ "." ++ pad2 (n.natAbs % 100)

/-- The `senegalBounds` regional box (`MapView.tsx` 1682-1684). -/
def senegalBox (lon lat : ℚ) : Prop :=
  mkRat (-178) 10 ≤ lon ∧ lon ≤ mkRat (-112) 10 ∧ 12 ≤ lat ∧ lat ≤ mkRat 168 10

instance (lon lat : ℚ) : Decidable (senegalBox lon lat) :=
  inferInstanceAs (Decidable (_ ∧ _ ∧ _ ∧ _))

/-- Error message for a non-array or too-short coordinate value. -/
def invalidMsg : String := "Coordonnées invalides"

/-- Error message for a non-numeric x or y. -/
def nonNumericMsg : String := "Coordonnées non numériques"

/-- Error message for a reprojected point outside the Senegal bounding box. -/
def outOfBoundsMsg (lon lat : ℚ) : String :=
  "Coordonnées converties hors limites du Sénégal: [" ++ toFixed2 lon ++ ", " ++ toFixed2 lat ++ "]"

/-- Error message wrapping a caught projection exception. -/
def convErrMsg (m : String) : String := "Erreur de conversion: " ++ m

/-- The converted-coordinate result object of `convertCoordinates`: a field
that the source object literal omits is `none`. -/
structure ConvResult where
  longitude : Option ℚ
  latitude : Option ℚ
  sourceSystem : Option String
  error : Option String
  deriving DecidableEq

/-- Body of the `try` block of `convertCoordinates` after destructuring and
the numeric checks (`MapView.tsx` 1676-1703). -/
def convertPair (proj : ProjFn) (x y : ℚ) : ConvResult :=
  if detectCoordinateSystem x y = "EPSG:4326" then
    ⟨some x, some y, some (detectCoordinateSystem x y), none⟩
  else
    match proj (detectCoordinateSystem x y) x y with
    | .ok (lon, lat) =>
      if senegalBox lon lat then
        ⟨some (round6 lon), some (round6 lat), some (detectCoordinateSystem x y), none⟩
      else
        ⟨none, none, none, some (outOfBoundsMsg lon lat)⟩
    | .error m => ⟨none, none, none, some (convErrMsg m)⟩

/-- Source function `convertCoordinates` (`MapView.tsx` 1668-1704). -/
def convertCoordinates (proj : ProjFn) (coordinates : JVal) : ConvResult :=
  match coordinates with
  | .arr xs =>
    if xs.length < 2 then ⟨none, none, none, some invalidMsg⟩
    else
      match xs.getD 0 .undef, xs.getD 1 .undef with
      | .num x, .num y => convertPair proj x y
      | _, _ => ⟨none, none, none, some nonNumericMsg⟩
  | _ => ⟨none, none, none, some invalidMsg⟩

/-- Source function `extractCoordinates` (`MapView.tsx` 1706-1717). -/
def extractCoordinates (geometry : JVal) : Option JVal :=
  if !(truthy geometry) || !(truthy (getField geometry "coordinates")) then none
  else
    match getField geometry "type" with
    | .str "Point" => some (getField geometry "coordinates")
    | .str "LineString" =>
      if isArray (jsIndex (getField geometry "coordinates") 0) then
        some (jsIndex (getField geometry "coordinates") 0)
      else none
    | .str "Polygon" =>
      if isArray (jsIndex (getField geometry "coordinates") 0) &&
          isArray (jsIndex (jsIndex (getField geometry "coordinates") 0) 0) then
        some (jsIndex (jsIndex (getField geometry "coordinates") 0) 0)
      else none
    | .str "MultiPoint" =>
      if isArray (jsIndex (getField geometry "coordinates") 0) then
        some (jsIndex (getField geometry "coordinates") 0)
      else none
    | .str "MultiLineString" =>
      if isArray (jsIndex (getField geometry "coordinates") 0) &&
          isArray (jsIndex (jsIndex (getField geometry "coordinates") 0) 0) then
        some (jsIndex (jsIndex (getField geometry "coordinates") 0) 0)
      else none
    | .str "MultiPolygon" =>
      if isArray (jsIndex (getField geometry "coordinates") 0) &&
          isArray (jsIndex (jsIndex (getField geometry "coordinates") 0) 0) &&
          isArray (jsIndex (jsIndex (jsIndex (getField geometry "coordinates") 0) 0) 0) then
        some (jsIndex (jsIndex (jsIndex (getField geometry "coordinates") 0) 0) 0)
      else none
    | _ => none

/-! ## Batch feature mapper (`uploadGeoJSONWithProj4`, `MapView.tsx` 1791-1882)

The Supabase insert that follows record construction is an external
collaborator and is outside the modelled core; the model covers the
validation, per-feature mapping, statistics and the thrown errors up to and
including the empty-result check. -/

/-- Model of the JS `Number()` coercion on the values met in property bags.
String parsing is modelled for the plain digit-string case only (no claim
depends on numeric-string parsing); `none` stands for `NaN`. -/
def jsToNumber : JVal → Option ℚ
  | .num q => some q
  | .nul => some 0
  | .bool b => some (if b then 1 else 0)
  | .str s =>
    if s = "" then some 0
    else if s.data.all Char.isDigit then
      some ((s.data.foldl (fun n c => 10 * n + (c.toNat - 48)) 0 : ℕ) : ℚ)
    else none
  | .arr [] => some 0
  | .arr [.num q] => some q
  | _ => none

/-- The pattern `Number(e) || 0`: `NaN` collapses to `0` (and `0` stays `0`). -/
def numOrZero (o : Option ℚ) : ℚ := o.getD 0

/-- The target table union type of `uploadGeoJSONWithProj4`. -/
inductive TableKind where
  | collection_points
  | urban_furniture
  | sweeping_routes
  deriving DecidableEq

/-- Property-bag access `feature.properties?.k`. -/
def prop (feature : JVal) (k : String) : JVal := getField (getField feature "properties") k

/-- The `getName` closure (`MapView.tsx` 1818-1823); `index` is 0-based. -/
def getNameField (feature : JVal) (index : ℕ) : JVal :=
  jsOr (prop feature "name") (jsOr (prop feature "nom") (jsOr (prop feature "NAME")
    (jsOr (prop feature "NOM") (.str ("Élément " ++ toString (index + 1))))))

/-- The `getStatus` closure (`MapView.tsx` 1825-1829). -/
def getStatusField (feature : JVal) : JVal :=
  jsOr (prop feature "status") (jsOr (prop feature "statut")
    (jsOr (prop feature "STATUS") (prop feature "STATUT")))

/-- The `commune_id` alias chain of `baseData` and the sweeping-route shape. -/
def communeId (feature : JVal) : JVal :=
  jsOr (prop feature "commune_id") (jsOr (prop feature "COMMUNE_ID") .nul)

/-- An entity record: the object literal built for one feature, as an ordered
field list. -/
abbrev Record := List (String × JVal)

/-- The `Number(a || b || c) || 0` pattern used for numeric fields. -/
def numField (a b c : JVal) : JVal :=
  .num (numOrZero (jsToNumber (jsOr a (jsOr b c))))

/-- The same pattern with a four-long alias chain. -/
def numField4 (a b c d : JVal) : JVal :=
  .num (numOrZero (jsToNumber (jsOr a (jsOr b (jsOr c d)))))

/-- The record built for one successfully converted feature
(`MapView.tsx` 1812-1864).  `now` is the value of `new Date().toISOString()`
at the moment the urban-furniture default is evaluated. -/
def buildRecord (table : TableKind) (now : String) (index : ℕ) (feature : JVal)
    (lon lat : ℚ) : Record :=
  match table with
  | .collection_points =>
    [("latitude", .num lat), ("longitude", .num lon), ("commune_id", communeId feature),
     ("name", getNameField feature index),
     ("type", jsOr (prop feature "type") (jsOr (prop feature "TYPE") (.str "bin"))),
     ("capacity_kg", numField (prop feature "capacity_kg") (prop feature "capacite_kg")
        (prop feature "CAPACITY_KG")),
     ("waste_type", jsOr (prop feature "waste_type") (jsOr (prop feature "type_dechet")
        (jsOr (prop feature "WASTE_TYPE") (.str "general")))),
     ("status", jsOr (getStatusField feature) (.str "active"))]
  | .urban_furniture =>
    [("latitude", .num lat), ("longitude", .num lon), ("commune_id", communeId feature),
     ("type", jsOr (prop feature "type") (jsOr (prop feature "TYPE") (.str "PRN"))),
     ("name", getNameField feature index),
     ("location", jsOr (prop feature "location") (jsOr (prop feature "adresse")
        (jsOr (prop feature "LOCATION") (jsOr (prop feature "ADRESSE") (.str ""))))),
     ("install_date", jsOr (prop feature "install_date") (jsOr (prop feature "date_installation")
        (jsOr (prop feature "INSTALL_DATE") (.str now)))),
     ("last_maintenance_date", jsOr (prop feature "last_maintenance_date")
        (jsOr (prop feature "derniere_maintenance")
          (jsOr (prop feature "LAST_MAINTENANCE") .nul))),
     ("capacity_kg", numField (prop feature "capacity_kg") (prop feature "capacite_kg")
        (prop feature "CAPACITY_KG")),
     ("status", jsOr (getStatusField feature) (.str "good"))]
  | .sweeping_routes =>
    [("name", getNameField feature index),
     ("code", jsOr (prop feature "code") (jsOr (prop feature "CODE")
        (jsOr (prop feature "identifiant") (jsOr (prop feature "IDENTIFIANT") .nul)))),
     ("commune_id", communeId feature),
     ("shift", jsOr (prop feature "shift") (jsOr (prop feature "equipe")
        (jsOr (prop feature "SHIFT") (jsOr (prop feature "EQUIPE") (.str "matin"))))),
     ("length_meters", numField4 (prop feature "length_meters") (prop feature "longueur_m")
        (prop feature "LENGTH_METERS") (prop feature "LONGUEUR_M")),
     ("estimated_duration_minutes", numField4 (prop feature "estimated_duration_minutes")
        (prop feature "duree_estimee_min") (prop feature "ESTIMATED_DURATION")
        (prop feature "DUREE_ESTIMEE")),
     ("status", jsOr (getStatusField feature) (.str "active"))]
    ++ (if lon ≠ 0 ∧ lat ≠ 0 then [("latitude", .num lat), ("longitude", .num lon)] else [])

/-- The mutable `conversionStats` object (`MapView.tsx` 1801); `systems` keeps
JS object key-insertion order. -/
structure ConvStats where
  total : ℕ
  success : ℕ
  failed : ℕ
  systems : List (String × ℕ)
  deriving DecidableEq

/-- Counter bump `stats.systems[s] = (stats.systems[s] || 0) + 1`. -/
def incrSystem : List (String × ℕ) → String → List (String × ℕ)
  | [], k => [(k, 1)]
  | (k2, n) :: rest, k => if k2 = k then (k2, n + 1) :: rest else (k2, n) :: incrSystem rest k

/-- Guarded counter bump `if (sourceSystem) conversionStats.systems[...]`
(`MapView.tsx` 1810): an absent or empty identifier is falsy. -/
def bumpSystems (sys : Option String) (m : List (String × ℕ)) : List (String × ℕ) :=
  match sys with
  | some s => if s = "" then m else incrSystem m s
  | none => m

/-- One iteration of the `features.map` callback (`MapView.tsx` 1803-1866):
the updated statistics and the produced record (`none` for the `null`
returns).  The callback body cannot throw in the model, so the local
`catch (e)` branch has no inhabitant here. -/
def mapFeature (proj : ProjFn) (table : TableKind) (now : String) (index : ℕ)
    (feature : JVal) (stats : ConvStats) : ConvStats × Option Record :=
  match extractCoordinates (getField feature "geometry") with
  | none => ({ stats with failed := stats.failed + 1 }, none)
  | some coordinates =>
    match (convertCoordinates proj coordinates).longitude,
        (convertCoordinates proj coordinates).latitude with
    | some lon, some lat =>
      ({ stats with
          success := stats.success + 1,
          systems := bumpSystems (convertCoordinates proj coordinates).sourceSystem
            stats.systems },
       some (buildRecord table now index feature lon lat))
    | _, _ => ({ stats with failed := stats.failed + 1 }, none)

/-- The `features.map(...).filter(item => item !== null)` pass, threading the
mutated statistics. -/
def processFeatures (proj : ProjFn) (table : TableKind) (now : String) :
    List JVal → ℕ → ConvStats → ConvStats × List Record
  | [], _, stats => (stats, [])
  | f :: rest, index, stats =>
    ((processFeatures proj table now rest (index + 1)
        (mapFeature proj table now index f stats).1).1,
      match (mapFeature proj table now index f stats).2 with
      | some r =>
        r :: (processFeatures proj table now rest (index + 1)
          (mapFeature proj table now index f stats).1).2
      | none =>
        (processFeatures proj table now rest (index + 1)
          (mapFeature proj table now index f stats).1).2)

/-- The value returned by `uploadGeoJSONWithProj4` (minus the external insert
response `data`). -/
structure UploadResult where
  records : List Record
  count : ℕ
  skipped : ℕ
  stats : ConvStats

/-- Thrown message: input is not a non-null object. -/
def errNotObject : String := "Le fichier doit contenir un objet JSON valide"

/-- Thrown message: `type` is not `"FeatureCollection"`. -/
def errNotFeatureCollection : String := "Le GeoJSON doit être de type \"FeatureCollection\""

/-- Thrown message: `features` is missing or not an array. -/
def errNoFeaturesArray : String := "Le GeoJSON doit contenir un tableau \"features\""

/-- Thrown message: `features` is empty. -/
def errEmptyFeatures : String := "Le GeoJSON ne contient aucune feature"

/-- Thrown message: zero records survived conversion. -/
def errNoValidFeatures : String := "Aucune feature valide trouvée dans le GeoJSON après conversion"

/-- Source function `uploadGeoJSONWithProj4` (`MapView.tsx` 1791-1882) up to
the external insert: thrown validation errors become `Except.error`. -/
def uploadGeoJSONWithProj4 (proj : ProjFn) (geojson : JVal) (table : TableKind)
    (now : String) : Except String UploadResult :=
  if !(truthy geojson) || !(jsTypeof geojson == "object") then .error errNotObject
  else
    match getField geojson "type" with
    | .str "FeatureCollection" =>
      match getField geojson "features" with
      | .arr features =>
        if features.isEmpty then .error errEmptyFeatures
        else
          if (processFeatures proj table now features 0 ⟨features.length, 0, 0, []⟩).2.isEmpty then
            .error errNoValidFeatures
          else
            .ok ⟨(processFeatures proj table now features 0 ⟨features.length, 0, 0, []⟩).2,
              (processFeatures proj table now features 0 ⟨features.length, 0, 0, []⟩).2.length,
              (processFeatures proj table now features 0 ⟨features.length, 0, 0, []⟩).1.failed,
              (processFeatures proj table now features 0 ⟨features.length, 0, 0, []⟩).1⟩
      | _ => .error errNoFeaturesArray
    | _ => .error errNotFeatureCollection

/-! ## Specification-side definitions

Written from the specification text, to be compared with the embedded source
functions. -/

/-- Spec detection range 1: geographic. -/
def geoRange (x y : ℚ) : Prop := -180 ≤ x ∧ x ≤ 180 ∧ -90 ≤ y ∧ y ≤ 90

/-- Spec detection range 2: UTM zone 28N. -/
def utm28Range (x y : ℚ) : Prop := 200000 ≤ x ∧ x ≤ 800000 ∧ 1400000 ≤ y ∧ y ≤ 1900000

/-- Spec detection range 3: UTM zone 27N. -/
def utm27Range (x y : ℚ) : Prop := 400000 ≤ x ∧ x ≤ 900000 ∧ 1400000 ≤ y ∧ y ≤ 1900000

/-- Spec detection range 4: the regional Lambert system. -/
def lambertRange (x y : ℚ) : Prop := 200000 ≤ x ∧ x ≤ 600000 ∧ 0 ≤ y ∧ y ≤ 500000

instance (x y : ℚ) : Decidable (geoRange x y) :=
  inferInstanceAs (Decidable (_ ∧ _ ∧ _ ∧ _))

instance (x y : ℚ) : Decidable (utm28Range x y) :=
  inferInstanceAs (Decidable (_ ∧ _ ∧ _ ∧ _))

instance (x y : ℚ) : Decidable (utm27Range x y) :=
  inferInstanceAs (Decidable (_ ∧ _ ∧ _ ∧ _))

instance (x y : ℚ) : Decidable (lambertRange x y) :=
  inferInstanceAs (Decidable (_ ∧ _ ∧ _ ∧ _))

/-- Spec-side view of input validation of `convertCoordinates`: `some (x, y)`
when the input is an array of length at least two whose first two elements are
numbers. -/
def numericPair (v : JVal) : Option (ℚ × ℚ) :=
  match v with
  | .arr xs =>
    if xs.length < 2 then none
    else
      match xs.getD 0 .undef, xs.getD 1 .undef with
      | .num x, .num y => some (x, y)
      | _, _ => none
  | _ => none

/-- Spec-side condition under which conversion of a numeric pair fails: a
non-geographic detection followed by a projection exception or an
out-of-the-regional-box result. -/
def failCondition (proj : ProjFn) (x y : ℚ) : Prop :=
  detectCoordinateSystem x y ≠ "EPSG:4326" ∧
    match proj (detectCoordinateSystem x y) x y with
    | .ok p => ¬senegalBox p.1 p.2
    | .error _ => True

/-- Spec success shape: both coordinates non-null, a source system, no error. -/
def isSuccessResult (r : ConvResult) : Prop :=
  r.longitude.isSome ∧ r.latitude.isSome ∧ r.sourceSystem.isSome ∧ r.error = none

/-- Spec failure shape: both coordinates null and an error message. -/
def isFailureResult (r : ConvResult) : Prop :=
  r.longitude = none ∧ r.latitude = none ∧ r.error.isSome

/-- Is this a flat two-element numeric array (the output shape the spec
asserts for `extractCoordinates`)? -/
def isFlatNumericPair : JVal → Bool
  | .arr [.num _, .num _] => true
  | _ => false

/-- One descent step of the spec extractor: the first element, required to be
an array. -/
def firstIfArray (v : JVal) : Option JVal :=
  if isArray (jsIndex v 0) then some (jsIndex v 0) else none

/-- Iterated descent of the spec extractor. -/
def descend : ℕ → JVal → Option JVal
  | 0, v => some v
  | n + 1, v => (firstIfArray v).bind (descend n)

/-- Nesting depth the spec assigns to each supported geometry type. -/
def geomDepth : String → Option ℕ
  | "Point" => some 0
  | "LineString" => some 1
  | "MultiPoint" => some 1
  | "Polygon" => some 2
  | "MultiLineString" => some 2
  | "MultiPolygon" => some 3
  | _ => none

/-- The extractor as the (amended) spec words it: on a truthy geometry with
truthy `coordinates`, descend the type-specific number of levels, checking at
each level only that the next element is an array; the `Point` leaf is
returned unvalidated. -/
def extractSpec (geometry : JVal) : Option JVal :=
  if truthy geometry && truthy (getField geometry "coordinates") then
    match getField geometry "type" with
    | .str t => (geomDepth t).bind (fun n => descend n (getField geometry "coordinates"))
    | _ => none
  else none

/-- Sum of the per-system counters. -/
def sumSystems : List (String × ℕ) → ℕ
  | [] => 0
  | (_, n) :: rest => n + sumSystems rest

/-- Does the record carry this field? -/
def hasField (r : Record) (k : String) : Bool := r.any (fun p => p.1 == k)

/-- Does the input carry `type` exactly `"FeatureCollection"`? -/
def typeIsFC (g : JVal) : Bool :=
  match getField g "type" with
  | .str s => s == "FeatureCollection"
  | _ => false

/-- The `features` field as a list, when it is an array. -/
def featuresArr (g : JVal) : Option (List JVal) :=
  match getField g "features" with
  | .arr fs => some fs
  | _ => none

/-- Number of features carried by the input (0 when `features` is absent or
not an array). -/
def numFeatures (g : JVal) : ℕ :=
  match featuresArr g with
  | some fs => fs.length
  | none => 0

/-- Clock-independent projection of an upload outcome: error message, or
count, skipped and statistics. -/
def statsView : Except String UploadResult → Except String (ℕ × ℕ × ConvStats)
  | .ok r => .ok (r.count, r.skipped, r.stats)
  | .error e => .error e

/-- First record of a successful upload, `[]` otherwise. -/
def firstRecord : Except String UploadResult → Record
  | .ok r => r.records.getD 0 []
  | .error _ => []

/-! ## Concrete inputs for witnesses and counterexamples -/

/-- A projection stub standing in for `proj4`: a constant in-region result. -/
def projW : ProjFn := fun _ _ _ => .ok (mkRat (-1744) 100, mkRat 1469 100)

/-- A projection stub whose result is far outside the regional box. -/
def projFar : ProjFn := fun _ _ _ => .ok (mkRat 2035 100, mkRat (-412) 100)

/-- A projection stub that throws. -/
def projThrow : ProjFn := fun _ _ _ => .error "boom"

/-- A feature with a geographic point inside the regional box. -/
def featGood : JVal :=
  .obj [("geometry", .obj [("type", .str "Point"),
    ("coordinates", .arr [.num (mkRat (-173) 10), .num (mkRat 147 10)])])]

/-- A feature whose longitude is exactly zero (geographic, on the prime
meridian). -/
def featZeroLon : JVal :=
  .obj [("geometry", .obj [("type", .str "Point"),
    ("coordinates", .arr [.num 0, .num 14])])]

/-- A feature with an unsupported geometry type. -/
def featBad : JVal :=
  .obj [("geometry", .obj [("type", .str "GeometryCollection"),
    ("coordinates", .arr [.num 1])])]

/-- A two-feature collection: one good geographic point, one extraction
failure. -/
def collW : JVal :=
  .obj [("type", .str "FeatureCollection"), ("features", .arr [featGood, featBad])]

/-- The same two-feature collection for the systems-counter witness. -/
def collW10 : JVal :=
  .obj [("type", .str "FeatureCollection"), ("features", .arr [featGood, featBad])]

/-- A one-feature collection whose single feature has no properties at all
(so the urban-furniture `install_date` falls back to the clock). -/
def collClock : JVal :=
  .obj [("type", .str "FeatureCollection"), ("features", .arr [featGood])]

/-- A Point geometry carrying a three-element coordinates array. -/
def badPointGeom : JVal :=
  .obj [("type", .str "Point"), ("coordinates", .arr [.num 1, .num 2, .num 3])]

/-- The collection-point record produced for `featGood` at index 0. -/
def recW : Record :=
  [("latitude", .num (mkRat 147 10)), ("longitude", .num (mkRat (-173) 10)),
   ("commune_id", .nul), ("name", .str "Élément 1"), ("type", .str "bin"),
   ("capacity_kg", .num 0), ("waste_type", .str "general"), ("status", .str "active")]

/-- The upload result for `collW` into the collection-point table. -/
def resW : UploadResult := ⟨[recW], 1, 1, ⟨2, 1, 1, [("EPSG:4326", 1)]⟩⟩

/-- The sweeping-route record produced for `featGood` at index 0. -/
def recW10 : Record :=
  [("name", .str "Élément 1"), ("code", .nul), ("commune_id", .nul),
   ("shift", .str "matin"), ("length_meters", .num 0),
   ("estimated_duration_minutes", .num 0), ("status", .str "active"),
   ("latitude", .num (mkRat 147 10)), ("longitude", .num (mkRat (-173) 10))]

/-- The upload result for `collW10` into the sweeping-route table. -/
def resW10 : UploadResult := ⟨[recW10], 1, 1, ⟨2, 1, 1, [("EPSG:4326", 1)]⟩⟩

/-- A collection whose single feature has an unsupported geometry, so no
record survives. -/
def collNoValid : JVal :=
  .obj [("type", .str "FeatureCollection"), ("features", .arr [featBad])]

/-! ## Helper lemmas -/

theorem detect_ne_empty (x y : ℚ) : detectCoordinateSystem x y ≠ "" := by
  unfold detectCoordinateSystem
  split_ifs <;> decide

theorem success_fail_exclusive (r : ConvResult) :
    ¬(isSuccessResult r ∧ isFailureResult r) := by
  rintro ⟨⟨hlon, -, -, -⟩, hlon2, -, -⟩
  rw [hlon2] at hlon
  simp at hlon

theorem convertPair_cases (proj : ProjFn) (x y : ℚ) :
    isSuccessResult (convertPair proj x y) ∨ isFailureResult (convertPair proj x y) := by
  unfold convertPair
  split
  · left; simp [isSuccessResult]
  · split
    · split
      · left; simp [isSuccessResult]
      · right; simp [isFailureResult]
    · right; simp [isFailureResult]

theorem convert_eq_pair (proj : ProjFn) (v : JVal) (x y : ℚ)
    (h : numericPair v = some (x, y)) :
    convertCoordinates proj v = convertPair proj x y := by
  cases v
  case arr xs =>
    simp only [numericPair] at h
    simp only [convertCoordinates]
    by_cases hl : xs.length < 2
    · rw [if_pos hl] at h
      exact absurd h (by simp)
    · rw [if_neg hl] at h
      rw [if_neg hl]
      cases h0 : xs.getD 0 JVal.undef <;> rw [h0] at h <;>
        cases h1 : xs.getD 1 JVal.undef <;> rw [h1] at h <;> simp at h
      obtain ⟨rfl, rfl⟩ := h
      rfl
  all_goals exact absurd h (by simp [numericPair])

theorem convert_badShape (proj proj2 : ProjFn) (v : JVal)
    (h : numericPair v = none) :
    convertCoordinates proj v = convertCoordinates proj2 v ∧
      isFailureResult (convertCoordinates proj v) := by
  cases v
  case arr xs =>
    simp only [numericPair] at h
    simp only [convertCoordinates]
    by_cases hl : xs.length < 2
    · rw [if_pos hl, if_pos hl]
      exact ⟨rfl, by simp [isFailureResult]⟩
    · rw [if_neg hl] at h
      rw [if_neg hl, if_neg hl]
      cases h0 : xs.getD 0 JVal.undef <;> rw [h0] at h <;>
        cases h1 : xs.getD 1 JVal.undef <;> rw [h1] at h <;>
        simp at h <;>
        exact ⟨rfl, by simp [isFailureResult]⟩
  all_goals exact ⟨rfl, by simp [convertCoordinates, isFailureResult]⟩

theorem convertPair_shape (proj : ProjFn) (x y : ℚ) :
    (detectCoordinateSystem x y = "EPSG:4326" ∧
      convertPair proj x y = ⟨some x, some y, some (detectCoordinateSystem x y), none⟩)
    ∨ (detectCoordinateSystem x y ≠ "EPSG:4326" ∧
        ∃ lon lat, proj (detectCoordinateSystem x y) x y = .ok (lon, lat) ∧
          senegalBox lon lat ∧
          convertPair proj x y =
            ⟨some (round6 lon), some (round6 lat), some (detectCoordinateSystem x y), none⟩)
    ∨ (detectCoordinateSystem x y ≠ "EPSG:4326" ∧
        ∃ lon lat, proj (detectCoordinateSystem x y) x y = .ok (lon, lat) ∧
          ¬senegalBox lon lat ∧
          convertPair proj x y = ⟨none, none, none, some (outOfBoundsMsg lon lat)⟩)
    ∨ (detectCoordinateSystem x y ≠ "EPSG:4326" ∧
        ∃ m, proj (detectCoordinateSystem x y) x y = .error m ∧
          convertPair proj x y = ⟨none, none, none, some (convErrMsg m)⟩) := by
  unfold convertPair
  by_cases hd : detectCoordinateSystem x y = "EPSG:4326"
  · left
    exact ⟨hd, by rw [if_pos hd]⟩
  · rw [if_neg hd]
    cases hp : proj (detectCoordinateSystem x y) x y with
    | ok p =>
      obtain ⟨lon, lat⟩ := p
      by_cases hb : senegalBox lon lat
      · right; left
        refine ⟨hd, lon, lat, rfl, hb, ?_⟩
        simp [hb]
      · right; right; left
        refine ⟨hd, lon, lat, rfl, hb, ?_⟩
        simp [hb]
    | error m =>
      right; right; right
      exact ⟨hd, m, rfl, rfl⟩

theorem convertPair_fail_iff (proj : ProjFn) (x y : ℚ) :
    isFailureResult (convertPair proj x y) ↔ failCondition proj x y := by
  rcases convertPair_shape proj x y with
      ⟨hd, hres⟩ | ⟨hd, lon, lat, hp, hb, hres⟩ | ⟨hd, lon, lat, hp, hb, hres⟩ | ⟨hd, m, hp, hres⟩ <;>
    rw [hres] <;> simp [isFailureResult, failCondition, *]

theorem convertPair_throws (proj : ProjFn) (x y : ℚ) (m : String)
    (hd : detectCoordinateSystem x y ≠ "EPSG:4326")
    (hp : proj (detectCoordinateSystem x y) x y = .error m) :
    convertPair proj x y = ⟨none, none, none, some (convErrMsg m)⟩ := by
  unfold convertPair
  rw [if_neg hd, hp]

theorem convertPair_success_sys (proj : ProjFn) (x y : ℚ) (lon : ℚ)
    (hlon : (convertPair proj x y).longitude = some lon) :
    (convertPair proj x y).sourceSystem = some (detectCoordinateSystem x y) := by
  rcases convertPair_shape proj x y with
      ⟨-, hres⟩ | ⟨-, a, b, -, -, hres⟩ | ⟨-, a, b, -, -, hres⟩ | ⟨-, m, -, hres⟩ <;>
    rw [hres] <;> rw [hres] at hlon <;> simp at hlon ⊢

theorem convert_success_sys (proj : ProjFn) (v : JVal) (lon lat : ℚ)
    (hlon : (convertCoordinates proj v).longitude = some lon)
    (_hlat : (convertCoordinates proj v).latitude = some lat) :
    ∃ s, (convertCoordinates proj v).sourceSystem = some s ∧ s ≠ "" := by
  cases hnp : numericPair v with
  | none =>
    have hfail := (convert_badShape proj proj v hnp).2
    rw [hfail.1] at hlon
    simp at hlon
  | some p =>
    rw [convert_eq_pair proj v p.1 p.2 (by rw [hnp])] at hlon ⊢
    refine ⟨detectCoordinateSystem p.1 p.2,
      convertPair_success_sys proj p.1 p.2 lon hlon, detect_ne_empty p.1 p.2⟩

/-! ## Claim theorems -/

/-- Claim C1: `detectCoordinateSystem` tests the four inclusive ranges in
fixed priority order (geographic, UTM 28N, UTM 27N, Lambert) and falls back
to UTM 28N, and boundary points of each range classify into that range under
the stated priority. -/
theorem detect_priority_order :
    (∀ x y : ℚ, detectCoordinateSystem x y =
      if geoRange x y then "EPSG:4326"
      else if utm28Range x y then "EPSG:32628"
      else if utm27Range x y then "EPSG:32627"
      else if lambertRange x y then "EPSG:2147"
      else "EPSG:32628")
    ∧ detectCoordinateSystem (-180) (-90) = "EPSG:4326"
    ∧ detectCoordinateSystem 180 90 = "EPSG:4326"
    ∧ detectCoordinateSystem 200000 1400000 = "EPSG:32628"
    ∧ detectCoordinateSystem 800000 1900000 = "EPSG:32628"
    ∧ detectCoordinateSystem 900000 1400000 = "EPSG:32627"
    ∧ detectCoordinateSystem 900000 1900000 = "EPSG:32627"
    ∧ detectCoordinateSystem 200000 0 = "EPSG:2147"
    ∧ detectCoordinateSystem 600000 500000 = "EPSG:2147" := by
  refine ⟨fun x y => ?_, by decide, by decide, by decide, by decide, by decide, by decide,
    by decide, by decide⟩
  unfold detectCoordinateSystem geoRange utm28Range utm27Range lambertRange
  rfl

/-- Claim C2: `convertCoordinates` always returns exactly one of the success
shape (both coordinates non-null, source system set) and the failure shape
(both coordinates null, error present); failure happens precisely for a bad
input shape (immediately, independently of the projection) or for a numeric
pair that detects non-geographic and whose projection throws or lands outside
the regional box, and a thrown projection exception is caught with its
message carried in the failure result. -/
theorem convert_success_xor_failure :
    ∀ (proj proj2 : ProjFn) (v : JVal),
      (isSuccessResult (convertCoordinates proj v) ∨
        isFailureResult (convertCoordinates proj v)) ∧
      ¬(isSuccessResult (convertCoordinates proj v) ∧
          isFailureResult (convertCoordinates proj v)) ∧
      (numericPair v = none →
        convertCoordinates proj v = convertCoordinates proj2 v ∧
          isFailureResult (convertCoordinates proj v)) ∧
      (∀ x y, numericPair v = some (x, y) →
        (isFailureResult (convertCoordinates proj v) ↔ failCondition proj x y)) ∧
      (∀ x y m, numericPair v = some (x, y) →
        detectCoordinateSystem x y ≠ "EPSG:4326" →
        proj (detectCoordinateSystem x y) x y = .error m →
        convertCoordinates proj v = ⟨none, none, none, some (convErrMsg m)⟩) := by
  intro proj proj2 v
  refine ⟨?_, success_fail_exclusive _, fun hnp => convert_badShape proj proj2 v hnp, ?_, ?_⟩
  · cases hnp : numericPair v with
    | none => exact Or.inr (convert_badShape proj proj2 v hnp).2
    | some p =>
      rw [convert_eq_pair proj v p.1 p.2 (by rw [hnp])]
      exact convertPair_cases proj p.1 p.2
  · intro x y hnp
    rw [convert_eq_pair proj v x y hnp]
    exact convertPair_fail_iff proj x y
  · intro x y m hnp hd hp
    rw [convert_eq_pair proj v x y hnp]
    exact convertPair_throws proj x y m hd hp

theorem convert_success_xor_failure_witness :
    (convertCoordinates projW (.str "oops") = convertCoordinates projThrow (.str "oops") ∧
      isFailureResult (convertCoordinates projW (.str "oops"))) ∧
    (isFailureResult (convertCoordinates projFar (.arr [.num 300000, .num 1630000])) ↔
      failCondition projFar 300000 1630000) ∧
    convertCoordinates projThrow (.arr [.num 300000, .num 1630000]) =
      ⟨none, none, none, some (convErrMsg "boom")⟩ :=
  ⟨(convert_success_xor_failure projW projThrow (.str "oops")).2.2.1 rfl,
   (convert_success_xor_failure projFar projFar (.arr [.num 300000, .num 1630000])).2.2.2.1
      300000 1630000 rfl,
   (convert_success_xor_failure projThrow projThrow (.arr [.num 300000, .num 1630000])).2.2.2.2
      300000 1630000 "boom" rfl (by decide) rfl⟩

/-- Claim C3: a numeric pair that detects as a non-geographic system is
transformed through that system; a result inside the regional box yields
success with both values rounded to six decimals and the detected identifier,
and a result outside it yields failure with an error message embedding the
coordinates at two-decimal precision. -/
theorem convert_projected_path (proj : ProjFn) (v : JVal) (x y lon lat : ℚ)
    (hnp : numericPair v = some (x, y))
    (hd : detectCoordinateSystem x y ≠ "EPSG:4326")
    (hp : proj (detectCoordinateSystem x y) x y = .ok (lon, lat)) :
    (senegalBox lon lat →
      convertCoordinates proj v =
        ⟨some (round6 lon), some (round6 lat), some (detectCoordinateSystem x y), none⟩) ∧
    (¬senegalBox lon lat →
      convertCoordinates proj v =
        ⟨none, none, none,
         some ("Coordonnées converties hors limites du Sénégal: [" ++
           toFixed2 lon ++ ", " ++ toFixed2 lat ++ "]")⟩) := by
  rw [convert_eq_pair proj v x y hnp]
  unfold convertPair
  rw [if_neg hd, hp]
  constructor <;> intro hb <;> simp [hb, outOfBoundsMsg]

theorem convert_projected_path_witness :
    numericPair (JVal.arr [.num 300000, .num 1630000]) = some (300000, 1630000) ∧
    detectCoordinateSystem 300000 1630000 ≠ "EPSG:4326" ∧
    senegalBox (mkRat (-1744) 100) (mkRat 1469 100) ∧
    convertCoordinates projW (.arr [.num 300000, .num 1630000]) =
      ⟨some (round6 (mkRat (-1744) 100)), some (round6 (mkRat 1469 100)),
       some (detectCoordinateSystem 300000 1630000), none⟩ :=
  ⟨rfl, by decide, by decide,
   (convert_projected_path projW (.arr [.num 300000, .num 1630000]) 300000 1630000
      (mkRat (-1744) 100) (mkRat 1469 100) rfl (by decide) rfl).1 (by decide)⟩

/-- Claim C4: a numeric pair already within the geographic ranges passes
through `convertCoordinates` as the exact identity (no rounding), with the
geographic identifier as source system and no regional-box check — even far
outside the regional box. -/
theorem convert_geographic_identity (proj : ProjFn) (x y : ℚ) (rest : List JVal)
    (hx1 : -180 ≤ x) (hx2 : x ≤ 180) (hy1 : -90 ≤ y) (hy2 : y ≤ 90) :
    convertCoordinates proj (.arr (.num x :: .num y :: rest)) =
      ⟨some x, some y, some "EPSG:4326", none⟩ := by
  have hd : detectCoordinateSystem x y = "EPSG:4326" := by
    unfold detectCoordinateSystem
    rw [if_pos ⟨hx1, hx2, hy1, hy2⟩]
  have hnp : numericPair (JVal.arr (.num x :: .num y :: rest)) = some (x, y) := by
    simp only [numericPair]
    rw [if_neg (by simp)]
    rfl
  rw [convert_eq_pair proj _ x y hnp]
  unfold convertPair
  rw [if_pos hd, hd]

theorem convert_geographic_identity_witness :
    ((-180 : ℚ) ≤ 100 ∧ (100 : ℚ) ≤ 180 ∧ (-90 : ℚ) ≤ 50 ∧ (50 : ℚ) ≤ 90) ∧
    ¬senegalBox 100 50 ∧
    convertCoordinates projW (.arr [.num 100, .num 50]) =
      ⟨some 100, some 50, some "EPSG:4326", none⟩ :=
  ⟨by decide, by decide,
   convert_geographic_identity projW 100 50 []
     (by decide) (by decide) (by decide) (by decide)⟩

/-- Claim C5 counterexample: on a Point geometry whose `coordinates` is a
three-element array, `extractCoordinates` returns that array unvalidated —
neither a flat two-element numeric array nor null, refuting the claimed
output contract. -/
theorem extract_point_unvalidated :
    extractCoordinates badPointGeom = some (.arr [.num 1, .num 2, .num 3]) ∧
    isFlatNumericPair (.arr [.num 1, .num 2, .num 3]) = false :=
  ⟨rfl, rfl⟩

/-- Claim C5 (amended): `extractCoordinates` never raises and returns exactly
what the depth-indexed spec extractor returns: the Point leaf unvalidated,
for the other five supported types the iterated first element checked only to
be an array at each level, and null for an unsupported type, a falsy geometry
or falsy `coordinates`, or malformed nesting. -/
theorem extract_refines_spec :
    ∀ geometry : JVal, extractCoordinates geometry = extractSpec geometry := by
  intro g
  unfold extractCoordinates extractSpec
  by_cases h1 : truthy g
  case neg => simp [h1]
  by_cases h2 : truthy (getField g "coordinates")
  case neg => simp [h1, h2]
  have hA : ¬((!(truthy g) || !(truthy (getField g "coordinates"))) = true) := by
    simp [h1, h2]
  have hB : (truthy g && truthy (getField g "coordinates")) = true := by simp [h1, h2]
  rw [if_neg hA, if_pos hB]
  cases ht : getField g "type" <;> try rfl
  rename_i s
  split
  · rename_i hinfo; injection hinfo with hs; subst hs
    simp [geomDepth, descend]
  · rename_i hinfo; injection hinfo with hs; subst hs
    cases hA1 : isArray (jsIndex (getField g "coordinates") 0) <;>
      simp [hA1, geomDepth, descend, firstIfArray]
  · rename_i hinfo; injection hinfo with hs; subst hs
    cases hA1 : isArray (jsIndex (getField g "coordinates") 0) <;>
      cases hA2 : isArray (jsIndex (jsIndex (getField g "coordinates") 0) 0) <;>
      simp [hA1, hA2, geomDepth, descend, firstIfArray]
  · rename_i hinfo; injection hinfo with hs; subst hs
    cases hA1 : isArray (jsIndex (getField g "coordinates") 0) <;>
      simp [hA1, geomDepth, descend, firstIfArray]
  · rename_i hinfo; injection hinfo with hs; subst hs
    cases hA1 : isArray (jsIndex (getField g "coordinates") 0) <;>
      cases hA2 : isArray (jsIndex (jsIndex (getField g "coordinates") 0) 0) <;>
      simp [hA1, hA2, geomDepth, descend, firstIfArray]
  · rename_i hinfo; injection hinfo with hs; subst hs
    cases hA1 : isArray (jsIndex (getField g "coordinates") 0) <;>
      cases hA2 : isArray (jsIndex (jsIndex (getField g "coordinates") 0) 0) <;>
      cases hA3 : isArray (jsIndex (jsIndex (jsIndex (getField g "coordinates") 0) 0) 0) <;>
      simp [hA1, hA2, hA3, geomDepth, descend, firstIfArray]
  · rename_i hP hL hPo hMP hML hMPo
    split
    · rename_i t heq
      injection heq with hst
      subst hst
      unfold geomDepth
      split
      · exact (hP rfl).elim
      · exact (hL rfl).elim
      · exact (hMP rfl).elim
      · exact (hPo rfl).elim
      · exact (hML rfl).elim
      · exact (hMPo rfl).elim
      · rfl
    · rename_i heq
      exact (heq s rfl).elim

theorem sumSystems_incr (m : List (String × ℕ)) (k : String) :
    sumSystems (incrSystem m k) = sumSystems m + 1 := by
  induction m with
  | nil => rfl
  | cons p rest ih =>
    obtain ⟨k2, n⟩ := p
    by_cases h : k2 = k <;> simp [incrSystem, h, sumSystems, ih] <;> omega

theorem mapFeature_shape (proj : ProjFn) (table : TableKind) (now : String) (index : ℕ)
    (f : JVal) (stats : ConvStats) :
    (∃ r s, s ≠ "" ∧
        mapFeature proj table now index f stats =
          ({ stats with
              success := stats.success + 1,
              systems := incrSystem stats.systems s }, some r))
    ∨ mapFeature proj table now index f stats =
        ({ stats with failed := stats.failed + 1 }, none) := by
  cases hext : extractCoordinates (getField f "geometry") with
  | none => right; simp [mapFeature, hext]
  | some coords =>
    cases hlon : (convertCoordinates proj coords).longitude with
    | none => right; simp [mapFeature, hext, hlon]
    | some lon =>
      cases hlat : (convertCoordinates proj coords).latitude with
      | none => right; simp [mapFeature, hext, hlon, hlat]
      | some lat =>
        obtain ⟨s, hsys, hne⟩ := convert_success_sys proj coords lon lat hlon hlat
        left
        refine ⟨buildRecord table now index f lon lat, s, hne, ?_⟩
        simp [mapFeature, hext, hlon, hlat, hsys, bumpSystems, hne]

theorem processFeatures_shape (proj : ProjFn) (table : TableKind) (now : String) :
    ∀ (fs : List JVal) (index : ℕ) (stats : ConvStats),
      (processFeatures proj table now fs index stats).1.total = stats.total ∧
      (processFeatures proj table now fs index stats).1.success =
        stats.success + (processFeatures proj table now fs index stats).2.length ∧
      (processFeatures proj table now fs index stats).1.failed +
          (processFeatures proj table now fs index stats).2.length =
        stats.failed + fs.length ∧
      sumSystems (processFeatures proj table now fs index stats).1.systems =
        sumSystems stats.systems + (processFeatures proj table now fs index stats).2.length := by
  intro fs
  induction fs with
  | nil => intro index stats; simp [processFeatures]
  | cons f rest ih =>
    intro index stats
    rcases mapFeature_shape proj table now index f stats with ⟨r, s, hne, heq⟩ | heq
    · obtain ⟨ih1, ih2, ih3, ih4⟩ :=
        ih (index + 1)
          { stats with success := stats.success + 1, systems := incrSystem stats.systems s }
      try simp only [] at ih1 ih2 ih3 ih4
      try simp at ih3
      refine ⟨?_, ?_, ?_, ?_⟩ <;> simp only [processFeatures, heq]
      all_goals try simp [ih1, ih2, ih3, ih4, sumSystems_incr]
      all_goals omega
    · obtain ⟨ih1, ih2, ih3, ih4⟩ :=
        ih (index + 1) { stats with failed := stats.failed + 1 }
      try simp at ih2 ih3 ih4
      refine ⟨?_, ?_, ?_, ?_⟩ <;> simp only [processFeatures, heq]
      all_goals try simp [ih1, ih2, ih3, ih4]
      all_goals omega

theorem notObject_cond (g : JVal) (h : ¬(truthy g = true ∧ jsTypeof g = "object")) :
    (!(truthy g) || !(jsTypeof g == "object")) = true := by
  rcases not_and_or.mp h with h1 | h1
  · rw [Bool.not_eq_true] at h1
    simp [h1]
  · have hb : (jsTypeof g == "object") = false := beq_eq_false_iff_ne.mpr h1
    simp [hb]

theorem object_cond (g : JVal) (h1 : truthy g = true) (h2 : jsTypeof g = "object") :
    ¬((!(truthy g) || !(jsTypeof g == "object")) = true) := by
  simp [h1, h2]

theorem featuresArr_some {g : JVal} {fs : List JVal} (h : featuresArr g = some fs) :
    getField g "features" = .arr fs := by
  unfold featuresArr at h
  cases hf : getField g "features" <;> rw [hf] at h <;> simp at h
  rw [h]

theorem upload_master (proj : ProjFn) (g : JVal) (table : TableKind) (now : String) :
    uploadGeoJSONWithProj4 proj g table now =
      if !(truthy g) || !(jsTypeof g == "object") then .error errNotObject
      else if typeIsFC g then
        match featuresArr g with
        | some fs =>
          if fs.isEmpty then .error errEmptyFeatures
          else
            if (processFeatures proj table now fs 0 ⟨fs.length, 0, 0, []⟩).2.isEmpty then
              .error errNoValidFeatures
            else
              .ok ⟨(processFeatures proj table now fs 0 ⟨fs.length, 0, 0, []⟩).2,
                (processFeatures proj table now fs 0 ⟨fs.length, 0, 0, []⟩).2.length,
                (processFeatures proj table now fs 0 ⟨fs.length, 0, 0, []⟩).1.failed,
                (processFeatures proj table now fs 0 ⟨fs.length, 0, 0, []⟩).1⟩
        | none => .error errNoFeaturesArray
      else .error errNotFeatureCollection := by
  unfold uploadGeoJSONWithProj4
  by_cases h1 : (!(truthy g) || !(jsTypeof g == "object")) = true
  · rw [if_pos h1, if_pos h1]
  · rw [if_neg h1, if_neg h1]
    cases ht : getField g "type"
    pick_goal 5
    · rename_i s
      by_cases hs : s = "FeatureCollection"
      · subst hs
        have htFC : typeIsFC g = true := by simp [typeIsFC, ht]
        rw [if_pos htFC]
        cases hf : getField g "features" <;> simp only [featuresArr, hf]
      · have htFC : ¬typeIsFC g = true := by
          simp [typeIsFC, ht]
          exact hs
        rw [if_neg htFC]
        split
        · rename_i heq
          injection heq with h2
          exact absurd h2 hs
        · rfl
    all_goals rw [if_neg (show ¬typeIsFC g = true by simp [typeIsFC, ht])]

/-- Claim C6: the batch mapper validates its input before any per-feature
work — non-object input, a `type` other than `"FeatureCollection"`, a missing
or non-array `features`, and an empty `features` each raise their own
descriptive error — and separately, a batch that processes all features but
produces zero records raises a distinct no-valid-features error; all five
messages are pairwise distinct. -/
theorem upload_prevalidation :
    ∀ (proj : ProjFn) (table : TableKind) (now : String) (g : JVal),
      (¬(truthy g = true ∧ jsTypeof g = "object") →
        uploadGeoJSONWithProj4 proj g table now = .error errNotObject) ∧
      (truthy g = true ∧ jsTypeof g = "object" → typeIsFC g = false →
        uploadGeoJSONWithProj4 proj g table now = .error errNotFeatureCollection) ∧
      (truthy g = true ∧ jsTypeof g = "object" → typeIsFC g = true →
        featuresArr g = none →
        uploadGeoJSONWithProj4 proj g table now = .error errNoFeaturesArray) ∧
      (truthy g = true ∧ jsTypeof g = "object" → typeIsFC g = true →
        featuresArr g = some [] →
        uploadGeoJSONWithProj4 proj g table now = .error errEmptyFeatures) ∧
      (∀ fs, truthy g = true ∧ jsTypeof g = "object" → typeIsFC g = true →
        featuresArr g = some fs → fs ≠ [] →
        (processFeatures proj table now fs 0 ⟨fs.length, 0, 0, []⟩).2 = [] →
        uploadGeoJSONWithProj4 proj g table now = .error errNoValidFeatures) ∧
      List.Pairwise (fun a b => a ≠ b)
        [errNotObject, errNotFeatureCollection, errNoFeaturesArray, errEmptyFeatures,
         errNoValidFeatures] := by
  intro proj table now g
  refine ⟨?_, ?_, ?_, ?_, ?_, by decide⟩
  · intro h
    rw [upload_master, if_pos (notObject_cond g h)]
  · intro h hFC
    rw [upload_master]
    rw [if_neg (object_cond g h.1 h.2)]
    rw [if_neg (by simp [hFC])]
  · intro h hFC hf
    rw [upload_master]
    rw [if_neg (object_cond g h.1 h.2)]
    rw [if_pos hFC, hf]
  · intro h hFC hf
    rw [upload_master]
    rw [if_neg (object_cond g h.1 h.2)]
    rw [if_pos hFC, hf]
    rfl
  · intro fs h hFC hf hne hproc
    rw [upload_master]
    rw [if_neg (object_cond g h.1 h.2)]
    rw [if_pos hFC, hf]
    show (if fs.isEmpty = true then _ else _) = _
    have hfse : fs.isEmpty = false := by
      cases fs
      · exact absurd rfl hne
      · rfl
    rw [if_neg (by simp [hfse])]
    rw [if_pos (by simp [hproc])]

theorem upload_prevalidation_witness :
    uploadGeoJSONWithProj4 projW (.num 3) .collection_points "T" = .error errNotObject ∧
    uploadGeoJSONWithProj4 projW collNoValid .collection_points "T" =
      .error errNoValidFeatures :=
  ⟨(upload_prevalidation projW .collection_points "T" (.num 3)).1 (by decide),
   (upload_prevalidation projW .collection_points "T" collNoValid).2.2.2.2.1 [featBad]
     (by decide) rfl rfl (List.cons_ne_nil featBad []) rfl⟩

/-- Claim C7: for every batch passing pre-validation, `total` is the number
of input features, every feature counts in exactly one of `success` and
`failed` (so `success + failed = total` and each is at most `total`), the
returned `count` is `success` with exactly that many records, and `skipped`
is `failed`. -/
theorem upload_stats_accounting :
    ∀ (proj : ProjFn) (table : TableKind) (now : String) (g : JVal) (res : UploadResult),
      uploadGeoJSONWithProj4 proj g table now = .ok res →
      res.stats.total = numFeatures g ∧
      res.stats.success + res.stats.failed = res.stats.total ∧
      res.stats.success ≤ res.stats.total ∧
      res.stats.failed ≤ res.stats.total ∧
      res.count = res.stats.success ∧
      res.skipped = res.stats.failed ∧
      res.records.length = res.count := by
  intro proj table now g res h
  rw [upload_master] at h
  by_cases h1 : (!(truthy g) || !(jsTypeof g == "object")) = true
  · rw [if_pos h1] at h
    exact absurd h (by simp)
  · rw [if_neg h1] at h
    by_cases h2 : typeIsFC g = true
    · rw [if_pos h2] at h
      cases hf : featuresArr g with
      | none =>
        rw [hf] at h
        exact absurd h (by simp)
      | some fs =>
        rw [hf] at h
        change (if fs.isEmpty = true then _ else _) = _ at h
        by_cases h3 : fs.isEmpty = true
        · rw [if_pos h3] at h
          exact absurd h (by simp)
        · rw [if_neg h3] at h
          by_cases h4 :
              (processFeatures proj table now fs 0 ⟨fs.length, 0, 0, []⟩).2.isEmpty = true
          · rw [if_pos h4] at h
            exact absurd h (by simp)
          · rw [if_neg h4] at h
            have hres :
                res =
                  ⟨(processFeatures proj table now fs 0 ⟨fs.length, 0, 0, []⟩).2,
                    (processFeatures proj table now fs 0 ⟨fs.length, 0, 0, []⟩).2.length,
                    (processFeatures proj table now fs 0 ⟨fs.length, 0, 0, []⟩).1.failed,
                    (processFeatures proj table now fs 0 ⟨fs.length, 0, 0, []⟩).1⟩ := by
              injection h with h5
              exact h5.symm
            obtain ⟨p1, p2, p3, p4⟩ :=
              processFeatures_shape proj table now fs 0 ⟨fs.length, 0, 0, []⟩
            subst hres
            simp only at p1 p2 p3
            have hnum : numFeatures g = fs.length := by simp [numFeatures, hf]
            refine ⟨by rw [hnum]; exact p1, ?_, ?_, ?_, ?_, ?_, ?_⟩ <;>
              simp only [] <;> omega
    · rw [if_neg h2] at h
      exact absurd h (by simp)

theorem upload_stats_accounting_witness :
    resW.stats.total = numFeatures collW ∧
    resW.stats.success + resW.stats.failed = resW.stats.total ∧
    resW.stats.success ≤ resW.stats.total ∧
    resW.stats.failed ≤ resW.stats.total ∧
    resW.count = resW.stats.success ∧
    resW.skipped = resW.stats.failed ∧
    resW.records.length = resW.count :=
  upload_stats_accounting projW .collection_points "T" collW resW rfl

/-- Claim C10: the systems counter map is touched only on success — a failed
feature changes neither `systems` nor `success`, a successful feature
increments exactly one (non-empty) system key and `success` — so over a
whole accepted batch the counts in `systems` sum to `success`. -/
theorem upload_systems_accounting :
    ∀ (proj : ProjFn) (table : TableKind) (now : String),
      (∀ g res, uploadGeoJSONWithProj4 proj g table now = .ok res →
        sumSystems res.stats.systems = res.stats.success) ∧
      (∀ index f stats, (mapFeature proj table now index f stats).2 = none →
        (mapFeature proj table now index f stats).1.systems = stats.systems ∧
        (mapFeature proj table now index f stats).1.success = stats.success) ∧
      (∀ index f stats, (mapFeature proj table now index f stats).2.isSome = true →
        ∃ s, s ≠ "" ∧
          (mapFeature proj table now index f stats).1.systems = incrSystem stats.systems s ∧
          (mapFeature proj table now index f stats).1.success = stats.success + 1) := by
  intro proj table now
  refine ⟨?_, ?_, ?_⟩
  · intro g res h
    rw [upload_master] at h
    by_cases h1 : (!(truthy g) || !(jsTypeof g == "object")) = true
    · rw [if_pos h1] at h
      exact absurd h (by simp)
    · rw [if_neg h1] at h
      by_cases h2 : typeIsFC g = true
      · rw [if_pos h2] at h
        cases hf : featuresArr g with
        | none =>
          rw [hf] at h
          exact absurd h (by simp)
        | some fs =>
          rw [hf] at h
          change (if fs.isEmpty = true then _ else _) = _ at h
          by_cases h3 : fs.isEmpty = true
          · rw [if_pos h3] at h
            exact absurd h (by simp)
          · rw [if_neg h3] at h
            by_cases h4 :
                (processFeatures proj table now fs 0 ⟨fs.length, 0, 0, []⟩).2.isEmpty = true
            · rw [if_pos h4] at h
              exact absurd h (by simp)
            · rw [if_neg h4] at h
              have hres :
                  res =
                    ⟨(processFeatures proj table now fs 0 ⟨fs.length, 0, 0, []⟩).2,
                      (processFeatures proj table now fs 0 ⟨fs.length, 0, 0, []⟩).2.length,
                      (processFeatures proj table now fs 0 ⟨fs.length, 0, 0, []⟩).1.failed,
                      (processFeatures proj table now fs 0 ⟨fs.length, 0, 0, []⟩).1⟩ := by
                injection h with h5
                exact h5.symm
              obtain ⟨p1, p2, p3, p4⟩ :=
                processFeatures_shape proj table now fs 0 ⟨fs.length, 0, 0, []⟩
              subst hres
              simp [sumSystems] at p2 p4
              simp only []
              omega
      · rw [if_neg h2] at h
        exact absurd h (by simp)
  · intro index f stats hnone
    rcases mapFeature_shape proj table now index f stats with ⟨r, s, hne, heq⟩ | heq
    · rw [heq] at hnone
      exact absurd hnone (by simp)
    · rw [heq]
      exact ⟨rfl, rfl⟩
  · intro index f stats hsome
    rcases mapFeature_shape proj table now index f stats with ⟨r, s, hne, heq⟩ | heq
    · rw [heq]
      exact ⟨s, hne, rfl, rfl⟩
    · rw [heq] at hsome
      exact absurd hsome (by simp)

theorem upload_systems_accounting_witness :
    sumSystems resW10.stats.systems = resW10.stats.success :=
  (upload_systems_accounting projW .sweeping_routes "T").1 collW10 resW10 rfl

theorem buildRecord_clock_free (table : TableKind) (now now2 : String) (index : ℕ)
    (f : JVal) (lon lat : ℚ) (h : table ≠ .urban_furniture) :
    buildRecord table now index f lon lat = buildRecord table now2 index f lon lat := by
  cases table
  · rfl
  · exact absurd rfl h
  · rfl

theorem mapFeature_clock_stats (proj : ProjFn) (table : TableKind) (now now2 : String)
    (index : ℕ) (f : JVal) (stats : ConvStats) :
    (mapFeature proj table now index f stats).1 =
      (mapFeature proj table now2 index f stats).1 ∧
    (mapFeature proj table now index f stats).2.isSome =
      (mapFeature proj table now2 index f stats).2.isSome := by
  cases hext : extractCoordinates (getField f "geometry") with
  | none => simp [mapFeature, hext]
  | some coords =>
    cases hlon : (convertCoordinates proj coords).longitude with
    | none => simp [mapFeature, hext, hlon]
    | some lon =>
      cases hlat : (convertCoordinates proj coords).latitude with
      | none => simp [mapFeature, hext, hlon, hlat]
      | some lat => simp [mapFeature, hext, hlon, hlat]

theorem mapFeature_clock_free (proj : ProjFn) (table : TableKind) (now now2 : String)
    (index : ℕ) (f : JVal) (stats : ConvStats) (h : table ≠ .urban_furniture) :
    mapFeature proj table now index f stats = mapFeature proj table now2 index f stats := by
  cases hext : extractCoordinates (getField f "geometry") with
  | none => simp [mapFeature, hext]
  | some coords =>
    cases hlon : (convertCoordinates proj coords).longitude with
    | none => simp [mapFeature, hext, hlon]
    | some lon =>
      cases hlat : (convertCoordinates proj coords).latitude with
      | none => simp [mapFeature, hext, hlon, hlat]
      | some lat =>
        simp [mapFeature, hext, hlon, hlat,
          buildRecord_clock_free table now now2 index f lon lat h]

theorem isEmpty_of_length_eq {α β : Type} {l : List α} {l2 : List β}
    (h : l.length = l2.length) : l.isEmpty = l2.isEmpty := by
  cases l <;> cases l2 <;> simp_all

theorem processFeatures_clock (proj : ProjFn) (table : TableKind) (now now2 : String) :
    ∀ (fs : List JVal) (index : ℕ) (stats : ConvStats),
      (processFeatures proj table now fs index stats).1 =
        (processFeatures proj table now2 fs index stats).1 ∧
      (processFeatures proj table now fs index stats).2.length =
        (processFeatures proj table now2 fs index stats).2.length ∧
      (table ≠ .urban_furniture →
        processFeatures proj table now fs index stats =
          processFeatures proj table now2 fs index stats) := by
  intro fs
  induction fs with
  | nil => exact fun index stats => ⟨rfl, rfl, fun _ => rfl⟩
  | cons f rest ih =>
    intro index stats
    obtain ⟨hstats, hsome⟩ := mapFeature_clock_stats proj table now now2 index f stats
    obtain ⟨ih1, ih2, ih3⟩ := ih (index + 1) (mapFeature proj table now index f stats).1
    refine ⟨?_, ?_, ?_⟩
    · simp only [processFeatures]
      rw [← hstats]
      exact ih1
    · simp only [processFeatures]
      rw [← hstats]
      cases hL : (mapFeature proj table now index f stats).2 with
      | some r =>
        have hRs : (mapFeature proj table now2 index f stats).2.isSome = true := by
          rw [← hsome, hL]
          rfl
        obtain ⟨r2, hR⟩ := Option.isSome_iff_exists.mp hRs
        rw [hR]
        simp [ih2]
      | none =>
        have hRs : (mapFeature proj table now2 index f stats).2.isSome = false := by
          rw [← hsome, hL]
          rfl
        have hR : (mapFeature proj table now2 index f stats).2 = none :=
          Option.not_isSome_iff_eq_none.mp (by rw [hRs]; simp)
        rw [hR]
        exact ih2
    · intro ht
      have hmf := mapFeature_clock_free proj table now now2 index f stats ht
      simp only [processFeatures]
      rw [ih3 ht, hmf]

/-- Claim C8 counterexample: the urban-furniture record builder reads the
ambient clock for the `install_date` default, so two calls of the batch
mapper on the same input at different times produce different records. -/
theorem upload_clock_counterexample :
    lookupField
        (firstRecord (uploadGeoJSONWithProj4 projW collClock .urban_furniture
          "2024-01-01T00:00:00.000Z"))
        "install_date" = .str "2024-01-01T00:00:00.000Z" ∧
    lookupField
        (firstRecord (uploadGeoJSONWithProj4 projW collClock .urban_furniture
          "2024-01-02T00:00:00.000Z"))
        "install_date" = .str "2024-01-02T00:00:00.000Z" ∧
    uploadGeoJSONWithProj4 projW collClock .urban_furniture "2024-01-01T00:00:00.000Z" ≠
      uploadGeoJSONWithProj4 projW collClock .urban_furniture "2024-01-02T00:00:00.000Z" := by
  refine ⟨rfl, rfl, fun h => ?_⟩
  have h1 :
      lookupField
        (firstRecord (uploadGeoJSONWithProj4 projW collClock .urban_furniture
          "2024-01-01T00:00:00.000Z"))
        "install_date" = .str "2024-01-01T00:00:00.000Z" := rfl
  have h2 :
      lookupField
        (firstRecord (uploadGeoJSONWithProj4 projW collClock .urban_furniture
          "2024-01-02T00:00:00.000Z"))
        "install_date" = .str "2024-01-02T00:00:00.000Z" := rfl
  rw [h] at h1
  have h3 := h1.symm.trans h2
  injection h3 with h4
  have h5 : "2024-01-01T00:00:00.000Z" ≠ "2024-01-02T00:00:00.000Z" := by decide
  exact h5 h4

/-- Claim C8 (amended): the conversion statistics, count and skipped number
of a batch never depend on the clock, and for the collection-point and
sweeping-route kinds the whole result (records included) is a function of
the input alone; only the urban-furniture `install_date` default reads the
clock. -/
theorem upload_clock_effect :
    ∀ (proj : ProjFn) (g : JVal) (table : TableKind) (now now2 : String),
      statsView (uploadGeoJSONWithProj4 proj g table now) =
        statsView (uploadGeoJSONWithProj4 proj g table now2) ∧
      (table ≠ .urban_furniture →
        uploadGeoJSONWithProj4 proj g table now =
          uploadGeoJSONWithProj4 proj g table now2) := by
  intro proj g table now now2
  rw [upload_master, upload_master]
  by_cases h1 : (!(truthy g) || !(jsTypeof g == "object")) = true
  · rw [if_pos h1, if_pos h1]
    exact ⟨rfl, fun _ => rfl⟩
  · rw [if_neg h1, if_neg h1]
    by_cases h2 : typeIsFC g = true
    case neg =>
      rw [if_neg h2, if_neg h2]
      exact ⟨rfl, fun _ => rfl⟩
    rw [if_pos h2, if_pos h2]
    cases hf : featuresArr g with
    | none => exact ⟨rfl, fun _ => rfl⟩
    | some fs =>
      obtain ⟨hst, hlen, hfull⟩ :=
        processFeatures_clock proj table now now2 fs 0 ⟨fs.length, 0, 0, []⟩
      have hemp :
          (processFeatures proj table now fs 0 ⟨fs.length, 0, 0, []⟩).2.isEmpty =
            (processFeatures proj table now2 fs 0 ⟨fs.length, 0, 0, []⟩).2.isEmpty :=
        isEmpty_of_length_eq hlen
      constructor
      · show statsView (if fs.isEmpty = true then _ else _) =
          statsView (if fs.isEmpty = true then _ else _)
        by_cases h3 : fs.isEmpty = true
        · rw [if_pos h3, if_pos h3]
        · rw [if_neg h3, if_neg h3]
          by_cases h4 :
              (processFeatures proj table now fs 0 ⟨fs.length, 0, 0, []⟩).2.isEmpty = true
          · rw [if_pos h4, if_pos (hemp ▸ h4)]
          · rw [if_neg h4, if_neg (hemp ▸ h4)]
            simp [statsView, hst, hlen]
      · intro ht
        show (if fs.isEmpty = true then _ else _) = (if fs.isEmpty = true then _ else _)
        rw [hfull ht]

theorem upload_clock_effect_witness :
    uploadGeoJSONWithProj4 projW collClock .collection_points "2024-01-01T00:00:00.000Z" =
      uploadGeoJSONWithProj4 projW collClock .collection_points "2024-01-02T00:00:00.000Z" :=
  (upload_clock_effect projW collClock .collection_points "2024-01-01T00:00:00.000Z"
    "2024-01-02T00:00:00.000Z").2 (by decide)

/-- Claim C9 counterexample: a feature that converts successfully to
longitude 0 (non-null!) and latitude 14 gets a sweeping-route record WITHOUT
the `latitude`/`longitude` fields, because the source guards the spread with
JavaScript truthiness (`longitude && latitude`) rather than presence. -/
theorem sweeping_zero_coord_counterexample :
    convertCoordinates projW (.arr [.num 0, .num 14]) =
      ⟨some 0, some 14, some "EPSG:4326", none⟩ ∧
    (mapFeature projW .sweeping_routes "T" 0 featZeroLon ⟨1, 0, 0, []⟩).2.isSome = true ∧
    hasField ((mapFeature projW .sweeping_routes "T" 0 featZeroLon ⟨1, 0, 0, []⟩).2.getD [])
      "latitude" = false ∧
    hasField ((mapFeature projW .sweeping_routes "T" 0 featZeroLon ⟨1, 0, 0, []⟩).2.getD [])
      "longitude" = false :=
  ⟨rfl, rfl, rfl, rfl⟩

/-- Claim C9 (amended): on the success path for the sweeping-route kind the
record carries the `latitude`/`longitude` fields exactly when both converted
values are JavaScript-truthy (non-zero); a successful conversion with either
coordinate equal to 0 omits both fields even though both are present. -/
theorem sweeping_coord_fields_iff (proj : ProjFn) (now : String) (index : ℕ) (f : JVal)
    (stats : ConvStats) (coords : JVal) (lon lat : ℚ)
    (hext : extractCoordinates (getField f "geometry") = some coords)
    (hlon : (convertCoordinates proj coords).longitude = some lon)
    (hlat : (convertCoordinates proj coords).latitude = some lat) :
    (mapFeature proj .sweeping_routes now index f stats).2 =
      some (buildRecord .sweeping_routes now index f lon lat) ∧
    hasField (buildRecord .sweeping_routes now index f lon lat) "latitude" =
      (decide (lon ≠ 0) && decide (lat ≠ 0)) ∧
    hasField (buildRecord .sweeping_routes now index f lon lat) "longitude" =
      (decide (lon ≠ 0) && decide (lat ≠ 0)) := by
  refine ⟨by simp [mapFeature, hext, hlon, hlat], ?_, ?_⟩
  all_goals
    unfold buildRecord hasField
    by_cases h0 : lon ≠ 0 ∧ lat ≠ 0
    · rw [if_pos h0]
      simp [h0.1, h0.2]
    · rw [if_neg h0]
      rw [not_and_or] at h0
      rcases h0 with h0 | h0 <;> simp at h0 <;> simp [h0]

theorem sweeping_coord_fields_iff_witness :
    (mapFeature projW .sweeping_routes "T" 0 featGood ⟨1, 0, 0, []⟩).2 =
      some (buildRecord .sweeping_routes "T" 0 featGood (mkRat (-173) 10) (mkRat 147 10)) ∧
    hasField (buildRecord .sweeping_routes "T" 0 featGood (mkRat (-173) 10) (mkRat 147 10))
        "latitude" =
      (decide ((mkRat (-173) 10 : ℚ) ≠ 0) && decide ((mkRat 147 10 : ℚ) ≠ 0)) ∧
    hasField (buildRecord .sweeping_routes "T" 0 featGood (mkRat (-173) 10) (mkRat 147 10))
        "longitude" =
      (decide ((mkRat (-173) 10 : ℚ) ≠ 0) && decide ((mkRat 147 10 : ℚ) ≠ 0)) :=
  sweeping_coord_fields_iff projW "T" 0 featGood ⟨1, 0, 0, []⟩
    (.arr [.num (mkRat (-173) 10), .num (mkRat 147 10)]) (mkRat (-173) 10) (mkRat 147 10)
    rfl rfl rfl

end Sonaged
